import Mathlib

set_option maxHeartbeats 1000000

/-
  Verification development for the credit-card fraud-detection frontend.
  The definitions below are shallow embeddings of the TypeScript source:
  confidences and amounts are modelled as exact rationals, identifier and
  query strings as lists of characters (so that lowercasing and substring
  search are explicit), CSS class literals and messages as Lean strings,
  and component state as explicit record types with step functions for the
  event handlers.
-/

namespace FraudGuard

/-- The PredictionResult record returned by the /predict endpoint
(ResultCardProps.prediction in ResultCard.tsx). -/
structure PredictionResult where
  fraud : Bool
  confidence : ℚ
  message : String
  transaction_id : Option (List Char) := none
  timestamp : Option String := none
  deriving Repr, DecidableEq

/-- JS String.prototype.slice with non-negative in-range arguments:
the characters from index a (inclusive) to b (exclusive). -/
def jsSlice {α : Type} (s : List α) (a b : Nat) : List α := (s.drop a).take (b - a)

/-- JS String.prototype.toLowerCase, character by character. -/
def lowerList (s : List Char) : List Char := s.map Char.toLower

/-- JS String.prototype.includes: does need occur contiguously in hay? -/
def hasSub (hay need : List Char) : Bool :=
  match hay with
  | [] => need.isEmpty
  | _ :: t => need.isPrefixOf hay || hasSub t need

namespace ResultCard

/-- Embedding of getConfidenceColor from ResultCard.tsx: picks a gradient
class from the fraud flag and the confidence, with strict comparisons. -/
def getConfidenceColor (confidence : ℚ) (isFraud : Bool) : String :=
  if isFraud then
    if confidence > 0.8 then "from-red-500 to-rose-600"
    else if confidence > 0.5 then "from-orange-500 to-amber-600"
    else "from-yellow-500 to-amber-500"
  else
    if confidence < 0.2 then "from-emerald-500 to-green-600"
    else if confidence < 0.5 then "from-teal-500 to-emerald-500"
    else "from-blue-500 to-cyan-500"

/-- The code text the Transaction Details row renders for an id:
transaction_id.slice(0, 16) followed by a literal ellipsis. -/
def displayedTransactionId (id : List Char) : List Char :=
  jsSlice id 0 16 ++ "...".toList

/-- The Transaction Details row is rendered only when transaction_id is
present; this returns the code text it shows, if any. -/
def renderedTransactionIdRow (prediction : PredictionResult) : Option (List Char) :=
  match prediction.transaction_id with
  | some id => some (displayedTransactionId id)
  | none => none

/-- Embedding of copyTransactionId from ResultCard.tsx: writes the full
untruncated transaction_id to the clipboard when one is present. -/
def copyTransactionId (prediction : Option PredictionResult) : Option (List Char) :=
  match prediction with
  | some p => p.transaction_id
  | none => none

end ResultCard

/-- Modelled from the spec (section 4.5 Result Presenter): the severity tier
selected from (fraud, confidence), written with the thresholds and strict
comparisons the spec states. -/
def severityTierSpec (fraud : Bool) (confidence : ℚ) : String :=
  if fraud then
    if confidence > 0.8 then "high"
    else if confidence > 0.5 then "medium"
    else "low"
  else
    if confidence < 0.2 then "very safe"
    else if confidence < 0.5 then "safe"
    else "borderline-safe"

/-- The gradient class the source uses for each severity tier. -/
def tierColor (tier : String) : String :=
  if tier = "high" then "from-red-500 to-rose-600"
  else if tier = "medium" then "from-orange-500 to-amber-600"
  else if tier = "low" then "from-yellow-500 to-amber-500"
  else if tier = "very safe" then "from-emerald-500 to-green-600"
  else if tier = "safe" then "from-teal-500 to-emerald-500"
  else "from-blue-500 to-cyan-500"

/-- Outcome of one fetch exchange against the backend: a parsed successful
response, a non-2xx HTTP status, or a transport failure (fetch rejection). -/
inductive FetchOutcome where
  | ok (result : PredictionResult)
  | httpError (status : Nat)
  | transportError
  deriving Repr, DecidableEq

/-- A fetch outcome that is not a successful response. -/
def FetchOutcome.isFailure : FetchOutcome → Bool
  | .ok _ => false
  | .httpError _ => true
  | .transportError => true

/-- Toast notifications raised by the app (the sonner toast calls). -/
inductive Toast where
  | success (msg : String)
  | error (msg : String)
  deriving Repr, DecidableEq

def Toast.isError : Toast → Bool
  | .success _ => false
  | .error _ => true

/-- The slice of AppContent state that handlePrediction touches: the latest
prediction slot and the loading flag. -/
structure AppPredState where
  prediction : Option PredictionResult
  isLoading : Bool
  deriving Repr, DecidableEq

namespace App

/-- Embedding of handlePrediction from App.tsx: sets loading, performs one
exchange; a non-ok response is thrown and caught together with transport
errors, producing an error toast and leaving the prediction slot untouched;
a successful response replaces the slot and produces a success toast; the
finally block clears loading on every path. Returns the final state and the
toasts raised. -/
def handlePrediction (st : AppPredState) (outcome : FetchOutcome) :
    AppPredState × List Toast :=
  let loading := { st with isLoading := true }
  match outcome with
  | .ok result =>
      ({ loading with prediction := some result, isLoading := false },
       [Toast.success "Prediction completed!"])
  | .httpError _ =>
      ({ loading with isLoading := false },
       [Toast.error "Failed to get prediction. Is the backend running?"])
  | .transportError =>
      ({ loading with isLoading := false },
       [Toast.error "Failed to get prediction. Is the backend running?"])

end App

namespace PredictionForm

/-- The 30 form fields of TransactionFeatures, indexed 0 = time, 1..28 =
v1..v28, 29 = amount. -/
abbrev Field := Fin 30

/-- Embedding of defaultValues from PredictionForm.tsx: every field 0 except
amount = 100. -/
def defaultValues : Field → ℚ := fun i => if i = 29 then 100 else 0

/-- Object.values of the draft, in field order. -/
def values (f : Field → ℚ) : List ℚ := (List.finRange 30).map f

/-- The count computed in handleChange: values filtered to the non-zero
ones, then length. -/
def countNonzero (f : Field → ℚ) : Nat :=
  ((values f).filter (fun v => v != 0)).length

/-- The form state PredictionForm keeps: the draft and the displayed
completion percentage (useState formData / fillProgress). -/
structure FormState where
  formData : Field → ℚ
  fillProgress : ℚ

/-- The initial state: useState(defaultValues) and useState(0). -/
def formInit : FormState := ⟨defaultValues, 0⟩

/-- The user interactions that touch the draft: a single-field edit
(handleChange), reset-to-default (handleReset), and randomize-all
(fillRandomData, its Math.random draws abstracted into the data it
produces). -/
inductive FormEvent where
  | edit (field : Field) (value : ℚ)
  | reset
  | randomize (data : Field → ℚ)

/-- One step of the form: handleChange replaces the single field and
recomputes fillProgress as (filled / 30) * 100 over the new draft;
handleReset restores defaultValues and sets fillProgress to 0;
fillRandomData installs the random draft and sets fillProgress to 100. -/
def FormState.step (st : FormState) : FormEvent → FormState
  | .edit f v =>
      let newData := Function.update st.formData f v
      { formData := newData,
        fillProgress := ((countNonzero newData : ℚ) / 30) * 100 }
  | .reset => { formData := defaultValues, fillProgress := 0 }
  | .randomize data => { formData := data, fillProgress := 100 }

/-- Folding a sequence of interactions from a state. -/
def FormState.run (st : FormState) (evs : List FormEvent) : FormState :=
  evs.foldl FormState.step st

end PredictionForm

/-- The nested input_features object of a TransactionRecord. -/
structure InputFeatures where
  amount : Option ℚ := none
  time : Option ℚ := none
  deriving Repr, DecidableEq

/-- The Transaction interface of TransactionHistory.tsx. -/
structure Transaction where
  _id : String
  transaction_id : List Char
  prediction : Bool
  confidence : ℚ
  timestamp : String
  input_features : Option InputFeatures := none
  deriving Repr, DecidableEq

/-- The status filter of the history view: all, fraud-only or safe-only. -/
inductive TxFilter where
  | all
  | fraud
  | safe
  deriving Repr, DecidableEq, BEq

namespace TransactionHistory

/-- Embedding of filteredTransactions from TransactionHistory.tsx: keep the
entries whose status matches the selected filter and whose transaction_id
case-insensitively contains the search string (an empty search matches
everything). -/
def filteredTransactions (txs : List Transaction) (filter : TxFilter)
    (searchQuery : List Char) : List Transaction :=
  txs.filter fun tx =>
    let matchesFilter := filter == TxFilter.all
      || (filter == TxFilter.fraud && tx.prediction)
      || (filter == TxFilter.safe && !tx.prediction)
    let matchesSearch := searchQuery.isEmpty
      || hasSub (lowerList tx.transaction_id) (lowerList searchQuery)
    matchesFilter && matchesSearch

/-- itemsPerPage in TransactionHistory.tsx. -/
def itemsPerPage : Nat := 10

/-- Math.ceil(filteredTransactions.length / itemsPerPage). -/
def totalPages (M : Nat) : Nat := Nat.ceil ((M : ℚ) / itemsPerPage)

/-- Embedding of paginatedTransactions: the slice of the filtered list from
(currentPage - 1) * itemsPerPage to currentPage * itemsPerPage. -/
def paginatedTransactions (filtered : List Transaction) (currentPage : Nat) :
    List Transaction :=
  jsSlice filtered ((currentPage - 1) * itemsPerPage) (currentPage * itemsPerPage)

/-- Embedding of getConfidenceColor from TransactionHistory.tsx: fraud rows
are tiered by confidence, safe rows always get the emerald class. -/
def getConfidenceColor (confidence : ℚ) (isFraud : Bool) : String :=
  if isFraud then
    if confidence > 0.8 then "text-red-600 dark:text-red-400"
    else if confidence > 0.5 then "text-orange-600 dark:text-orange-400"
    else "text-yellow-600 dark:text-yellow-400"
  else "text-emerald-600 dark:text-emerald-400"

/-- One Math.random draw bundle consumed per mock record: the base36 id
suffix, the fraud roll, the confidence roll, the timestamp the Date math
produces, and the amount and time rolls. -/
structure MockRand where
  idSuffix : List Char
  fraudRoll : ℚ
  confidenceRoll : ℚ
  tsText : String
  amountRoll : ℚ
  timeRoll : ℚ

/-- Embedding of generateMockTransactions: 25 records, _id mock_i,
transaction_id txn_ plus a random suffix, prediction true when the fraud
roll exceeds 0.85, random confidence, a timestamp within the last day, and
input_features with both amount and time populated. -/
def generateMockTransactions (rnd : Fin 25 → MockRand) : List Transaction :=
  (List.finRange 25).map fun i =>
    { _id := "mock_" ++ toString i.val,
      transaction_id := "txn_".toList ++ (rnd i).idSuffix,
      prediction := decide ((0.85 : ℚ) < (rnd i).fraudRoll),
      confidence := (rnd i).confidenceRoll,
      timestamp := (rnd i).tsText,
      input_features := some { amount := some ((rnd i).amountRoll * 1000),
                               time := some ((rnd i).timeRoll * 172792) } }

/-- Outcome of the /recent fetch: a parsed ok response whose data field may
be absent, a non-ok response, or a transport failure. -/
inductive FetchResult where
  | ok (data : Option (List Transaction))
  | httpError
  | transportError

def FetchResult.isFailure : FetchResult → Bool
  | .ok _ => false
  | .httpError => true
  | .transportError => true

/-- The component state of TransactionHistory. -/
structure HistoryState where
  transactions : List Transaction
  loading : Bool
  filter : TxFilter
  searchQuery : List Char
  currentPage : Nat

/-- The initial state: empty list, loading, filter all, empty search,
page 1. -/
def historyInit : HistoryState := ⟨[], true, .all, [], 1⟩

/-- Embedding of fetchTransactions: an ok response installs its data (or an
empty list when the data field is absent); a non-ok response and a thrown
fetch both fall back to the 25 generated mock records; the finally block
clears loading on every path. -/
def fetchStep (st : HistoryState) (r : FetchResult) (rnd : Fin 25 → MockRand) :
    HistoryState :=
  match r with
  | .ok data => { st with transactions := data.getD [], loading := false }
  | .httpError => { st with transactions := generateMockTransactions rnd, loading := false }
  | .transportError => { st with transactions := generateMockTransactions rnd, loading := false }

/-- The user interactions of the history view that write state: the filter
select, the search input, the two pager buttons, and a completed refresh
writing the transaction list. -/
inductive HistoryAction where
  | setFilter (f : TxFilter)
  | setSearch (q : List Char)
  | prevPage
  | nextPage
  | setTransactions (data : List Transaction)

/-- One step of the history view: setFilter and setSearch write only their
own field; the pager buttons write currentPage as Math.max(1, p - 1) and
Math.min(totalPages, p + 1); a refresh writes only the list. -/
def historyStep (st : HistoryState) : HistoryAction → HistoryState
  | .setFilter f => { st with filter := f }
  | .setSearch q => { st with searchQuery := q }
  | .prevPage => { st with currentPage := max 1 (st.currentPage - 1) }
  | .nextPage =>
      let tp := totalPages (filteredTransactions st.transactions st.filter st.searchQuery).length
      { st with currentPage := min tp (st.currentPage + 1) }
  | .setTransactions data => { st with transactions := data }

end TransactionHistory

namespace AnalyticsDashboard

/-- JS logical-or on numbers as the source uses it for defaulting: a zero
(falsy) left operand yields the fallback, anything else yields itself. -/
def jsOr (x d : ℚ) : ℚ := if x = 0 then d else x

/-- The AggregateStats record AnalyticsDashboard receives. -/
structure Stats where
  totalPredictions : ℚ
  fraudCount : ℚ
  safeCount : ℚ
  fraudPercentage : ℚ
  deriving Repr, DecidableEq

/-- The Total Predictions stat card value: stats.totalPredictions or 1247. -/
def statTotal (s : Stats) : ℚ := jsOr s.totalPredictions 1247

/-- The Fraud Detected stat card value: stats.fraudCount or 23. -/
def statFraud (s : Stats) : ℚ := jsOr s.fraudCount 23

/-- The Safe Transactions stat card value: stats.safeCount or 1224. -/
def statSafe (s : Stats) : ℚ := jsOr s.safeCount 1224

/-- The Fraud Rate stat card value before toFixed(1):
stats.fraudPercentage or 1.8. -/
def statFraudRate (s : Stats) : ℚ := jsOr s.fraudPercentage 1.8

/-- The Safe slice of the pie chart: stats.safeCount or 85. -/
def pieSafeValue (s : Stats) : ℚ := jsOr s.safeCount 85

/-- The Fraud slice of the pie chart: stats.fraudCount or 15. -/
def pieFraudValue (s : Stats) : ℚ := jsOr s.fraudCount 15

end AnalyticsDashboard

/-- A concrete transaction used to instantiate witnesses. -/
def sampleSafeTx : Transaction :=
  { _id := "t1", transaction_id := "txn_abc".toList, prediction := false,
    confidence := 1/2, timestamp := "2026-01-01", input_features := none }

/-- A concrete fraud transaction used to instantiate witnesses. -/
def sampleFraudTx : Transaction :=
  { _id := "t2", transaction_id := "txn_def".toList, prediction := true,
    confidence := 9/10, timestamp := "2026-01-02", input_features := none }

/-
  Theorems. One theorem per claim, with helper lemmas shared between them
  declared first.
-/

example : severityTierSpec true 0.85 = "high" := by norm_num [severityTierSpec]
example : severityTierSpec true 0.6 = "medium" := by norm_num [severityTierSpec]
example : severityTierSpec false (1/10) = "very safe" := by norm_num [severityTierSpec]
example : ResultCard.getConfidenceColor 0.5 true = "from-yellow-500 to-amber-500" := by
  norm_num [ResultCard.getConfidenceColor]

/-- C1: the Result Presenter color selection factors through the severity
tier mapping of the spec, and that mapping selects, for fraud, "high" exactly
when confidence is above 0.8, "medium" exactly on (0.5, 0.8], "low" exactly
at or below 0.5, and, for non-fraud, "very safe" exactly below 0.2, "safe"
exactly on [0.2, 0.5), "borderline-safe" exactly at or above 0.5; in
particular the exact boundary 0.5 lands in the lower tier on both sides. -/
theorem c1_severity_mapping : ∀ (fraud : Bool) (c : ℚ),
    ResultCard.getConfidenceColor c fraud = tierColor (severityTierSpec fraud c)
    ∧ (severityTierSpec true c = "high" ↔ 0.8 < c)
    ∧ (severityTierSpec true c = "medium" ↔ 0.5 < c ∧ c ≤ 0.8)
    ∧ (severityTierSpec true c = "low" ↔ c ≤ 0.5)
    ∧ (severityTierSpec false c = "very safe" ↔ c < 0.2)
    ∧ (severityTierSpec false c = "safe" ↔ 0.2 ≤ c ∧ c < 0.5)
    ∧ (severityTierSpec false c = "borderline-safe" ↔ 0.5 ≤ c)
    ∧ severityTierSpec true 0.5 = "low"
    ∧ severityTierSpec false 0.5 = "borderline-safe" := by
  intro fraud c
  refine ⟨?_, ?_, ?_, ?_, ?_, ?_, ?_, ?_, ?_⟩
  · cases fraud <;>
      (unfold ResultCard.getConfidenceColor severityTierSpec
       split_ifs <;> simp [tierColor])
  · unfold severityTierSpec; split_ifs <;> simp_all <;> linarith
  · unfold severityTierSpec; split_ifs <;> simp_all <;> linarith
  · unfold severityTierSpec; split_ifs <;> simp_all <;> linarith
  · unfold severityTierSpec; split_ifs <;> simp_all <;> linarith
  · unfold severityTierSpec; split_ifs <;> simp_all <;> linarith
  · unfold severityTierSpec; split_ifs <;> simp_all <;> linarith
  · norm_num [severityTierSpec]
  · norm_num [severityTierSpec]

/-- C2: on every failed prediction exchange (transport error or non-2xx
status) the stored latest prediction is exactly what it was before the call,
an error toast is produced, and the loading flag ends false; the slot is
replaced by the parsed response exactly on success. -/
theorem c2_failure_preserves_prediction (st : AppPredState) (o : FetchOutcome)
    (hfail : o.isFailure = true) :
    (App.handlePrediction st o).1.prediction = st.prediction
    ∧ (App.handlePrediction st o).2.any Toast.isError = true
    ∧ (App.handlePrediction st o).1.isLoading = false
    ∧ ∀ r : PredictionResult,
        (App.handlePrediction st (.ok r)).1.prediction = some r
        ∧ (App.handlePrediction st (.ok r)).1.isLoading = false := by
  cases o with
  | ok r => simp [FetchOutcome.isFailure] at hfail
  | httpError s => simp [App.handlePrediction, Toast.isError]
  | transportError => simp [App.handlePrediction, Toast.isError]

/-- C2 witness: an HTTP 500 on the very first attempt leaves the slot null,
raises an error toast and clears loading. -/
theorem c2_failure_preserves_prediction_witness :
    (App.handlePrediction ⟨none, false⟩ (.httpError 500)).1.prediction = none
    ∧ (App.handlePrediction ⟨none, false⟩ (.httpError 500)).2.any Toast.isError = true
    ∧ (App.handlePrediction ⟨none, false⟩ (.httpError 500)).1.isLoading = false :=
  let h := c2_failure_preserves_prediction ⟨none, false⟩ (.httpError 500) rfl
  ⟨h.1, h.2.1, h.2.2.1⟩

namespace PredictionForm

theorem countNonzero_le (f : Field → ℚ) : countNonzero f ≤ 30 := by
  have h := List.length_filter_le (fun v => v != 0) (values f)
  simpa [values, countNonzero] using h

theorem fillProgress_bounds (st : FormState)
    (h0 : 0 ≤ st.fillProgress) (h100 : st.fillProgress ≤ 100)
    (evs : List FormEvent) :
    0 ≤ (st.run evs).fillProgress ∧ (st.run evs).fillProgress ≤ 100 := by
  induction evs generalizing st with
  | nil => exact ⟨h0, h100⟩
  | cons e evs ih =>
      have hstep : 0 ≤ (st.step e).fillProgress ∧ (st.step e).fillProgress ≤ 100 := by
        cases e with
        | edit f v =>
            have hle := countNonzero_le (Function.update st.formData f v)
            constructor
            · simp [FormState.step]
              positivity
            · simp [FormState.step]
              rw [div_le_one (by norm_num : (0:ℚ) < 30)]
              exact_mod_cast hle
        | reset => simp [FormState.step]
        | randomize data => simp [FormState.step]
      exact ih _ hstep.1 hstep.2

end PredictionForm

/-- C3 counterexample: in the initial form state the displayed completion
percentage is 0, yet the default draft has one non-zero field (amount = 100),
so 100 * count / 30 is 10/3, not 0; the claimed identity fails at the initial
state (and equally after reset-to-default). -/
theorem c3_counterexample :
    ¬ (PredictionForm.formInit.fillProgress
        = 100 * (PredictionForm.countNonzero PredictionForm.formInit.formData : ℚ) / 30) := by
  have h1 : PredictionForm.countNonzero PredictionForm.formInit.formData = 1 := by decide
  rw [h1]
  norm_num [PredictionForm.formInit]

/-- C3 amended: for any sequence of interactions from the initial state the
displayed completion percentage lies in [0, 100]; after any single-field
edit it equals 100 * (count of non-zero fields) / 30 of the new draft; but
the initial and reset states display 0 regardless of the default draft, and
randomize-all displays 100 regardless of the random draft. -/
theorem c3_completion_percentage (evs : List PredictionForm.FormEvent) :
    (0 ≤ (PredictionForm.formInit.run evs).fillProgress
      ∧ (PredictionForm.formInit.run evs).fillProgress ≤ 100)
    ∧ (∀ (f : PredictionForm.Field) (v : ℚ),
        ((PredictionForm.formInit.run evs).step (.edit f v)).fillProgress
          = 100 * (PredictionForm.countNonzero
              (((PredictionForm.formInit.run evs).step (.edit f v)).formData) : ℚ) / 30)
    ∧ (∀ st : PredictionForm.FormState, (st.step .reset).fillProgress = 0)
    ∧ (∀ (st : PredictionForm.FormState) (data : PredictionForm.Field → ℚ),
        (st.step (.randomize data)).fillProgress = 100) := by
  refine ⟨?_, ?_, ?_, ?_⟩
  · exact PredictionForm.fillProgress_bounds _ le_rfl
      (by norm_num [PredictionForm.formInit]) evs
  · intro f v
    simp [PredictionForm.FormState.step]
    ring
  · intro st; rfl
  · intro st data; rfl

/-- C3 witness: the bounds and the edit identity, instantiated at the
two-event sequence edit(v1, 5), edit(amount, 0). -/
theorem c3_completion_percentage_witness :
    0 ≤ (PredictionForm.formInit.run
          [.edit 1 5, .edit 29 0]).fillProgress
    ∧ (PredictionForm.formInit.run
          [.edit 1 5, .edit 29 0]).fillProgress ≤ 100 :=
  (c3_completion_percentage [.edit 1 5, .edit 29 0]).1

/-- C4: filter "fraud" keeps exactly the entries with prediction = true and
filter "safe" exactly those with prediction = false; with a non-empty search
string the result is the order-preserving intersection with the entries
whose transaction_id case-insensitively contains the search substring; and
filter "all" with empty search returns the whole list unchanged. -/
theorem c4_filtering (txs : List Transaction) (q : List Char) :
    TransactionHistory.filteredTransactions txs .fraud []
      = txs.filter (fun tx => tx.prediction)
    ∧ TransactionHistory.filteredTransactions txs .safe []
      = txs.filter (fun tx => !tx.prediction)
    ∧ (q ≠ [] → TransactionHistory.filteredTransactions txs .fraud q
        = txs.filter (fun tx =>
            tx.prediction && hasSub (lowerList tx.transaction_id) (lowerList q)))
    ∧ (q ≠ [] → TransactionHistory.filteredTransactions txs .safe q
        = txs.filter (fun tx =>
            !tx.prediction && hasSub (lowerList tx.transaction_id) (lowerList q)))
    ∧ TransactionHistory.filteredTransactions txs .all [] = txs := by
  have hq : q ≠ [] → q.isEmpty = false := by
    intro hl
    cases q with
    | nil => exact absurd rfl hl
    | cons a l => rfl
  refine ⟨?_, ?_, fun hne => ?_, fun hne => ?_, ?_⟩
  · unfold TransactionHistory.filteredTransactions
    apply List.filter_congr
    intro tx _
    cases tx.prediction <;> rfl
  · unfold TransactionHistory.filteredTransactions
    apply List.filter_congr
    intro tx _
    cases tx.prediction <;> rfl
  · unfold TransactionHistory.filteredTransactions
    apply List.filter_congr
    intro tx _
    rw [hq hne]
    cases tx.prediction <;> rfl
  · unfold TransactionHistory.filteredTransactions
    apply List.filter_congr
    intro tx _
    rw [hq hne]
    cases tx.prediction <;> rfl
  · unfold TransactionHistory.filteredTransactions
    apply List.filter_eq_self.mpr
    intro tx _
    rfl

/-- C4 witness: the fraud filter combined with the search string def on a
concrete two-entry list is the conjunction filter. -/
theorem c4_filtering_witness :
    TransactionHistory.filteredTransactions [sampleFraudTx, sampleSafeTx]
        .fraud "def".toList
      = [sampleFraudTx, sampleSafeTx].filter (fun tx =>
          tx.prediction && hasSub (lowerList tx.transaction_id) (lowerList "def".toList)) :=
  (c4_filtering [sampleFraudTx, sampleSafeTx] "def".toList).2.2.1 (by decide)

theorem totalPages_eq (M : ℕ) : TransactionHistory.totalPages M = (M + 9) / 10 := by
  unfold TransactionHistory.totalPages TransactionHistory.itemsPerPage
  apply le_antisymm
  · rw [Nat.ceil_le]
    rw [div_le_iff (by norm_num : (0:ℚ) < (10:ℕ))]
    exact_mod_cast (by omega : M ≤ ((M + 9) / 10) * 10)
  · have hc := Nat.le_ceil ((M : ℚ) / (10:ℕ))
    rw [div_le_iff (by norm_num : (0:ℚ) < (10:ℕ))] at hc
    have h2 : M ≤ Nat.ceil ((M:ℚ) / (10:ℕ)) * 10 := by exact_mod_cast hc
    omega

theorem paginated_length (l : List Transaction) (pg : ℕ) :
    (TransactionHistory.paginatedTransactions l pg).length
      = min (pg * 10 - (pg - 1) * 10) (l.length - (pg - 1) * 10) := by
  simp [TransactionHistory.paginatedTransactions, jsSlice,
        TransactionHistory.itemsPerPage, List.length_take, List.length_drop]

/-- C5: with page size 10 the page count is the ceiling of M / 10 (it is
the least n with M at most 10 n); every page strictly before the last holds
exactly 10 items; for non-empty M the last page holds M mod 10 items, or 10
when M is a multiple of 10; and page p is the slice of the filtered list
from index 10 (p - 1) to 10 p. -/
theorem c5_pagination (l : List Transaction) (p M : ℕ) (hM : l.length = M) :
    (M ≤ 10 * TransactionHistory.totalPages M
      ∧ (0 < M → 10 * (TransactionHistory.totalPages M - 1) < M))
    ∧ (1 ≤ p → p < TransactionHistory.totalPages M →
        (TransactionHistory.paginatedTransactions l p).length = 10)
    ∧ (0 < M →
        (TransactionHistory.paginatedTransactions l
            (TransactionHistory.totalPages M)).length
          = if M % 10 = 0 then 10 else M % 10)
    ∧ (1 ≤ p → TransactionHistory.paginatedTransactions l p
        = (l.drop (10 * (p - 1))).take 10) := by
  have ht := totalPages_eq M
  refine ⟨⟨?_, fun hpos => ?_⟩, fun hp1 hp2 => ?_, fun hpos => ?_, fun hp1 => ?_⟩
  · omega
  · omega
  · rw [paginated_length, hM]
    omega
  · rw [paginated_length, hM, ht]
    split_ifs with hmod
    · omega
    · omega
  · unfold TransactionHistory.paginatedTransactions jsSlice
      TransactionHistory.itemsPerPage
    have h10 : p * 10 - (p - 1) * 10 = 10 := by omega
    have hcomm : (p - 1) * 10 = 10 * (p - 1) := by omega
    rw [h10, hcomm]

/-- C5 witness: a filtered set of 12 entries has a 2-item last page. -/
theorem c5_pagination_witness :
    (TransactionHistory.paginatedTransactions (List.replicate 12 sampleSafeTx)
        (TransactionHistory.totalPages 12)).length = 2 := by
  have h := c5_pagination (List.replicate 12 sampleSafeTx) 1 12 (by simp)
  have h3 := h.2.2.1 (by norm_num)
  simpa using h3

/-- C6 counterexample: the id abc123 has at most 16 characters, yet the
rendered code text is abc123 followed by an ellipsis, not the bare id — the
ellipsis is appended unconditionally by the source. -/
theorem c6_counterexample :
    "abc123".toList.length ≤ 16
    ∧ ResultCard.displayedTransactionId "abc123".toList = "abc123...".toList
    ∧ ResultCard.displayedTransactionId "abc123".toList ≠ "abc123".toList :=
  ⟨by decide, by decide, by decide⟩

/-- C6 amended: every rendered transaction id is its first
min(16, length) characters followed by an ellipsis — so an id of length at
most 16 is shown whole but still with the trailing ellipsis — and the copy
action always copies the full untruncated id. -/
theorem c6_truncation_display : ∀ id : List Char,
    ResultCard.displayedTransactionId id = id.take 16 ++ "...".toList
    ∧ (id.length ≤ 16 →
        ResultCard.displayedTransactionId id = id ++ "...".toList)
    ∧ (∀ p : PredictionResult, p.transaction_id = some id →
        ResultCard.renderedTransactionIdRow p = some (id.take 16 ++ "...".toList)
        ∧ ResultCard.copyTransactionId (some p) = some id) := by
  intro id
  refine ⟨?_, fun hle => ?_, fun p hp => ⟨?_, ?_⟩⟩
  · simp [ResultCard.displayedTransactionId, jsSlice]
  · simp [ResultCard.displayedTransactionId, jsSlice, List.take_of_length_le hle]
  · simp [ResultCard.renderedTransactionIdRow, hp,
          ResultCard.displayedTransactionId, jsSlice]
  · simp [ResultCard.copyTransactionId, hp]

/-- C6 witness: the stub scenario id abc123 is rendered whole with the
trailing ellipsis. -/
theorem c6_truncation_display_witness :
    ResultCard.displayedTransactionId "abc123".toList
      = "abc123".toList ++ "...".toList :=
  (c6_truncation_display "abc123".toList).2.1 (by decide)

/-- C7: whenever the history fetch fails (non-ok response or transport
error) the displayed list becomes exactly the 25 client-generated mock
records, loading clears, and every mock record carries the full record
shape, including an input_features object with both amount and time. -/
theorem c7_mock_fallback (st : TransactionHistory.HistoryState)
    (r : TransactionHistory.FetchResult)
    (rnd : Fin 25 → TransactionHistory.MockRand)
    (hfail : r.isFailure = true) :
    (TransactionHistory.fetchStep st r rnd).transactions
      = TransactionHistory.generateMockTransactions rnd
    ∧ (TransactionHistory.fetchStep st r rnd).loading = false
    ∧ (TransactionHistory.generateMockTransactions rnd).length = 25
    ∧ ∀ tx ∈ TransactionHistory.generateMockTransactions rnd,
        ∃ f : InputFeatures, tx.input_features = some f
          ∧ f.amount.isSome = true ∧ f.time.isSome = true := by
  have hlen : (TransactionHistory.generateMockTransactions rnd).length = 25 := by
    simp [TransactionHistory.generateMockTransactions]
  have hshape : ∀ tx ∈ TransactionHistory.generateMockTransactions rnd,
      ∃ f : InputFeatures, tx.input_features = some f
        ∧ f.amount.isSome = true ∧ f.time.isSome = true := by
    intro tx htx
    obtain ⟨i, _, rfl⟩ := List.mem_map.mp htx
    exact ⟨_, rfl, rfl, rfl⟩
  cases r with
  | ok data => simp [TransactionHistory.FetchResult.isFailure] at hfail
  | httpError => exact ⟨rfl, rfl, hlen, hshape⟩
  | transportError => exact ⟨rfl, rfl, hlen, hshape⟩

/-- C7 witness: a non-ok response installs the 25 mock records. -/
theorem c7_mock_fallback_witness :
    (TransactionHistory.fetchStep TransactionHistory.historyInit .httpError
        (fun _ => ⟨"x".toList, 9/10, 1/2, "ts", 1/10, 1/5⟩)).transactions
      = TransactionHistory.generateMockTransactions
          (fun _ => ⟨"x".toList, 9/10, 1/2, "ts", 1/10, 1/5⟩)
    ∧ (TransactionHistory.generateMockTransactions
          (fun _ => ⟨"x".toList, 9/10, 1/2, "ts", 1/10, 1/5⟩)).length = 25 :=
  let h := c7_mock_fallback TransactionHistory.historyInit .httpError
    (fun _ => ⟨"x".toList, 9/10, 1/2, "ts", 1/10, 1/5⟩) rfl
  ⟨h.1, h.2.2.1⟩

/-- C8: changing the status filter, the search string, or the fetched list
leaves currentPage untouched (no reset to page 1) — demonstrated to leave a
page out of range on a concrete state — while the pager buttons write
exactly Math.max(1, p - 1) and Math.min(totalPages, p + 1), which keep the
page inside [1, totalPages] whenever it started there and at least one page
exists. -/
theorem c8_page_frame (st : TransactionHistory.HistoryState) (f : TxFilter)
    (q : List Char) (data : List Transaction) :
    (TransactionHistory.historyStep st (.setFilter f)).currentPage = st.currentPage
    ∧ (TransactionHistory.historyStep st (.setSearch q)).currentPage = st.currentPage
    ∧ (TransactionHistory.historyStep st (.setTransactions data)).currentPage
        = st.currentPage
    ∧ (TransactionHistory.historyStep st .prevPage).currentPage
        = max 1 (st.currentPage - 1)
    ∧ (TransactionHistory.historyStep st .nextPage).currentPage
        = min (TransactionHistory.totalPages
              (TransactionHistory.filteredTransactions st.transactions
                st.filter st.searchQuery).length)
            (st.currentPage + 1)
    ∧ (1 ≤ st.currentPage →
        st.currentPage ≤ TransactionHistory.totalPages
          (TransactionHistory.filteredTransactions st.transactions
            st.filter st.searchQuery).length →
        (1 ≤ (TransactionHistory.historyStep st .prevPage).currentPage
          ∧ (TransactionHistory.historyStep st .prevPage).currentPage
              ≤ TransactionHistory.totalPages
                  (TransactionHistory.filteredTransactions st.transactions
                    st.filter st.searchQuery).length
          ∧ 1 ≤ (TransactionHistory.historyStep st .nextPage).currentPage
          ∧ (TransactionHistory.historyStep st .nextPage).currentPage
              ≤ TransactionHistory.totalPages
                  (TransactionHistory.filteredTransactions st.transactions
                    st.filter st.searchQuery).length))
    ∧ ((TransactionHistory.historyStep
          ⟨List.replicate 15 sampleFraudTx, false, .all, [], 2⟩
          (.setFilter .safe)).currentPage = 2
        ∧ TransactionHistory.totalPages
            (TransactionHistory.filteredTransactions
              (TransactionHistory.historyStep
                ⟨List.replicate 15 sampleFraudTx, false, .all, [], 2⟩
                (.setFilter .safe)).transactions .safe []).length = 0) := by
  refine ⟨rfl, rfl, rfl, rfl, rfl, fun h1 h2 => ?_, rfl, ?_⟩
  · refine ⟨?_, ?_, ?_, ?_⟩ <;>
      simp only [TransactionHistory.historyStep] <;> omega
  · have hempty : TransactionHistory.filteredTransactions
        (List.replicate 15 sampleFraudTx) .safe [] = [] := by
      unfold TransactionHistory.filteredTransactions
      rw [List.filter_eq_nil_iff]
      intro tx htx
      rw [List.eq_of_mem_replicate htx]
      decide
    show TransactionHistory.totalPages
        (TransactionHistory.filteredTransactions
          (List.replicate 15 sampleFraudTx) .safe []).length = 0
    rw [hempty, totalPages_eq]
    rfl

/-- C8 witness: the frame and clamping facts at a concrete in-range state
with one page of one safe transaction. -/
theorem c8_page_frame_witness :
    (TransactionHistory.historyStep
        ⟨[sampleSafeTx], false, .all, [], 1⟩ (.setFilter .fraud)).currentPage = 1
    ∧ 1 ≤ (TransactionHistory.historyStep
        ⟨[sampleSafeTx], false, .all, [], 1⟩ .prevPage).currentPage := by
  have h := c8_page_frame ⟨[sampleSafeTx], false, .all, [], 1⟩ .fraud [] []
  have hc := h.2.2.2.2.2.1 (by decide) (by rw [totalPages_eq]; decide)
  exact ⟨h.1, hc.1⟩

/-- C9: in the history table every safe row gets the single emerald
confidence class independently of its confidence, while fraud rows are
tiered at the 0.8 and 0.5 thresholds; the Result Presenter, by contrast,
does tier safe results by confidence. -/
theorem c9_history_safe_color (c c' : ℚ) :
    TransactionHistory.getConfidenceColor c false
      = "text-emerald-600 dark:text-emerald-400"
    ∧ TransactionHistory.getConfidenceColor c false
        = TransactionHistory.getConfidenceColor c' false
    ∧ (0.8 < c → TransactionHistory.getConfidenceColor c true
        = "text-red-600 dark:text-red-400")
    ∧ (0.5 < c → c ≤ 0.8 → TransactionHistory.getConfidenceColor c true
        = "text-orange-600 dark:text-orange-400")
    ∧ (c ≤ 0.5 → TransactionHistory.getConfidenceColor c true
        = "text-yellow-600 dark:text-yellow-400")
    ∧ ResultCard.getConfidenceColor (1/10) false
        ≠ ResultCard.getConfidenceColor (3/10) false := by
  refine ⟨rfl, rfl, fun h => ?_, fun h1 h2 => ?_, fun h => ?_, ?_⟩

  · unfold TransactionHistory.getConfidenceColor
    split_ifs <;> first | rfl | linarith | simp_all
  · unfold TransactionHistory.getConfidenceColor
    split_ifs <;> first | rfl | linarith | simp_all
  · unfold TransactionHistory.getConfidenceColor
    split_ifs <;> first | rfl | linarith | simp_all
  · norm_num [ResultCard.getConfidenceColor]
    decide

/-- C9 witness: a high-confidence fraud row is red while safe rows at the
same and at low confidence share the emerald class. -/
theorem c9_history_safe_color_witness :
    TransactionHistory.getConfidenceColor (9/10) false
      = TransactionHistory.getConfidenceColor (3/10) false
    ∧ TransactionHistory.getConfidenceColor (9/10) true
      = "text-red-600 dark:text-red-400" :=
  let h := c9_history_safe_color (9/10) (3/10)
  ⟨h.2.1, h.2.2.1 (by norm_num)⟩

/-- C10: with an all-zero stats record the dashboard shows the baked-in mock
numbers 1247, 23, 1224, 1.8 in the stat cards and 85 / 15 in the pie chart;
and no stats record ever displays a zero in these slots, because the JS
logical-or replaces every zero with its non-zero fallback. -/
theorem c10_mock_stat_defaults :
    AnalyticsDashboard.statTotal ⟨0, 0, 0, 0⟩ = 1247
    ∧ AnalyticsDashboard.statFraud ⟨0, 0, 0, 0⟩ = 23
    ∧ AnalyticsDashboard.statSafe ⟨0, 0, 0, 0⟩ = 1224
    ∧ AnalyticsDashboard.statFraudRate ⟨0, 0, 0, 0⟩ = 1.8
    ∧ AnalyticsDashboard.pieSafeValue ⟨0, 0, 0, 0⟩ = 85
    ∧ AnalyticsDashboard.pieFraudValue ⟨0, 0, 0, 0⟩ = 15
    ∧ ∀ s : AnalyticsDashboard.Stats,
        AnalyticsDashboard.statTotal s ≠ 0
        ∧ AnalyticsDashboard.statFraud s ≠ 0
        ∧ AnalyticsDashboard.statSafe s ≠ 0
        ∧ AnalyticsDashboard.statFraudRate s ≠ 0 := by
  refine ⟨rfl, rfl, rfl, rfl, rfl, rfl, fun s => ⟨?_, ?_, ?_, ?_⟩⟩ <;>
    (simp only [AnalyticsDashboard.statTotal, AnalyticsDashboard.statFraud,
       AnalyticsDashboard.statSafe, AnalyticsDashboard.statFraudRate,
       AnalyticsDashboard.jsOr]
     split_ifs with h <;> first | exact h | norm_num)

/-- C10 witness: a stats record with a non-zero total still displays a
non-zero total. -/
theorem c10_mock_stat_defaults_witness :
    AnalyticsDashboard.statTotal ⟨5, 1, 4, 20⟩ ≠ 0 :=
  (c10_mock_stat_defaults.2.2.2.2.2.2 ⟨5, 1, 4, 20⟩).1

end FraudGuard
